import Mathlib

/-!
Verification of the zork1 Python object model: a shallow embedding of
`zork1_python/objects` (base.py, item.py, container.py, actor.py, room.py)
and `zork1_python/utils/flags.py`, with theorems settling the spec claims
about containment, accessibility, light, the container state machine, the
actor health state machine, and the room description generator.

Machine integers: Python ints are unbounded, so health, amounts and flag
words are `Int` / `Nat`; flag words are `Nat` bitsets exactly as in the
`IntFlag` enum (bit k of `auto()` number k+1).
-/

namespace Zork

/-! Flag constants from `utils/flags.py` (`ObjectFlag`, an `IntFlag` whose
`auto()` values are successive powers of two, in declaration order). Only
the bits the claims touch are named. -/

def INVISIBLE : Nat := 2 ^ 0

def NDESCBIT : Nat := 2 ^ 1

def CONTBIT : Nat := 2 ^ 3

def SURFACEBIT : Nat := 2 ^ 4

def OPENBIT : Nat := 2 ^ 5

def TRANSBIT : Nat := 2 ^ 6

def LIGHTBIT : Nat := 2 ^ 12

def ONBIT : Nat := 2 ^ 13

def ACTORBIT : Nat := 2 ^ 15

def LOCKEDBIT : Nat := 2 ^ 34

def OPENABLE : Nat := 2 ^ 35

/-- `GameObject.has_flag`: `bool(self.flags & flag)` (base.py). -/
def hasFlagBits (flags flag : Nat) : Bool :=
  decide (flags &&& flag ≠ 0)

/-- `self.flags |= flag` (`GameObject.set_flag`). -/
def setBits (flags flag : Nat) : Nat :=
  flags ||| flag

/-- `self.flags &= ~flag` (`GameObject.clear_flag`). `Nat` has no
complement, so clearing the `flag` bits is written as xor with the part of
`flags` inside `flag`; for Python's unbounded non-negative flag words the
two are the same function. -/
def clearBits (flags flag : Nat) : Nat :=
  flags ^^^ (flags &&& flag)

/-! Actor health state machine, from `objects/actor.py`. `Actor.__init__`
sets `health`, `max_health = health`, `is_dead = False`; only these three
fields are read or written by `take_damage` and `heal`. -/

structure Actor where
  health : Int
  max_health : Int
  is_dead : Bool
deriving DecidableEq, Repr

/-- `Actor.take_damage` (actor.py lines 103-126), returning the updated
actor together with Python's `(actual damage, died)` pair. -/
def take_damage (s : Actor) (amount : Int) : Actor × Int × Bool :=
  if s.is_dead then (s, 0, true)
  else
    let actual := min amount s.health
    let h := s.health - actual
    if h ≤ 0 then ({ s with health := 0, is_dead := true }, actual, true)
    else ({ s with health := h }, actual, false)

/-- `Actor.heal` (actor.py lines 128-143), returning the updated actor and
the actual amount healed. -/
def heal (s : Actor) (amount : Int) : Actor × Int :=
  if s.is_dead then (s, 0)
  else
    let old := s.health
    let h := min (s.health + amount) s.max_health
    ({ s with health := h }, h - old)

/-- One health-affecting operation, for claims quantifying over sequences
of `take_damage` / `heal` calls. -/
inductive ActorOp where
  | damage (amount : Int)
  | heal (amount : Int)
deriving DecidableEq, Repr

/-- The amount an operation carries. -/
def ActorOp.amount : ActorOp → Int
  | ActorOp.damage a => a
  | ActorOp.heal a => a

/-- Run a sequence of operations, threading the actor state. -/
def runOps (s : Actor) : List ActorOp → Actor
  | [] => s
  | ActorOp.damage a :: rest => runOps (take_damage s a).1 rest
  | ActorOp.heal a :: rest => runOps (heal s a).1 rest

/-- The health invariant of a well-formed actor: health inside
`[0, max_health]` and the dead flag equivalent to zero health. -/
def ActorInv (s : Actor) : Prop :=
  0 ≤ s.health ∧ s.health ≤ s.max_health ∧ (s.is_dead = true ↔ s.health = 0)

instance (s : Actor) : Decidable (ActorInv s) := by
  unfold ActorInv; infer_instance

/-! Container state machine, from `objects/container.py`. The four
transitions read and write only the flag word, `is_surface` and
`short_desc`, so the embedding carries exactly those fields. Each method
returns the updated container together with Python's `(success, message)`
pair; the Python f-strings are written as explicit concatenations. -/

structure Container where
  flags : Nat
  is_surface : Bool
  short_desc : String
deriving DecidableEq, Repr

/-- `Container.is_open`: surfaces are always open, else the OPENBIT. -/
def Container.is_open (c : Container) : Bool :=
  if c.is_surface then true else hasFlagBits c.flags OPENBIT

/-- `Container.is_openable`: surfaces are never openable, else OPENABLE. -/
def Container.is_openable (c : Container) : Bool :=
  if c.is_surface then false else hasFlagBits c.flags OPENABLE

/-- `Container.is_transparent`. -/
def Container.is_transparent (c : Container) : Bool :=
  hasFlagBits c.flags TRANSBIT

/-- `Container.is_locked`. -/
def Container.is_locked (c : Container) : Bool :=
  hasFlagBits c.flags LOCKEDBIT

/-- `Container.open` (container.py lines 111-131); `open` is a Lean
keyword, hence the trailing underscore. -/
def Container.open_ (c : Container) : Container × Bool × String :=
  if c.is_surface then (c, false, "You can't open that.")
  else if ¬ c.is_openable then (c, false, "You can't open that.")
  else if c.is_locked then (c, false, "The " ++ c.short_desc ++ " is locked.")
  else if c.is_open then (c, false, "The " ++ c.short_desc ++ " is already open.")
  else ({ c with flags := setBits c.flags OPENBIT }, true, "Opened.")

/-- `Container.close` (container.py lines 133-150). -/
def Container.close (c : Container) : Container × Bool × String :=
  if c.is_surface then (c, false, "You can't close that.")
  else if ¬ c.is_openable then (c, false, "You can't close that.")
  else if ¬ c.is_open then (c, false, "The " ++ c.short_desc ++ " is already closed.")
  else ({ c with flags := clearBits c.flags OPENBIT }, true, "Closed.")

/-- `Container.lock` (container.py lines 152-170). -/
def Container.lock (c : Container) : Container × Bool × String :=
  if c.is_surface then (c, false, "You can't lock that.")
  else if ¬ c.is_open then
    if c.is_locked then (c, false, "The " ++ c.short_desc ++ " is already locked.")
    else ({ c with flags := setBits c.flags LOCKEDBIT }, true, "Locked.")
  else (c, false, "The " ++ c.short_desc ++ " must be closed first.")

/-- `Container.unlock` (container.py lines 172-186). -/
def Container.unlock (c : Container) : Container × Bool × String :=
  if c.is_surface then (c, false, "You can't unlock that.")
  else if ¬ c.is_locked then (c, false, "The " ++ c.short_desc ++ " isn't locked.")
  else ({ c with flags := clearBits c.flags LOCKEDBIT }, true, "Unlocked.")

/-! World model: the containment graph of `GameObject`s (base.py) with the
kind-specific fields the claims need (room.py, item.py). Objects are
addressed by `Nat` ids; a world maps every id to an object. Python
attribute absence (`hasattr`) is modelled by `Option`: plain
`GameObject`s and `Room`s have no `fdesc`/`ldesc` attribute, items,
containers and actors do. -/

inductive Kind where
  | room
  | item
  | container
  | actor
  | plain
deriving DecidableEq, Repr

structure GameObject where
  kind : Kind := Kind.plain
  flags : Nat := 0
  location : Option Nat := none
  contents : List Nat := []
  seen : Bool := false
  visited : Bool := false
  light_level : Int := 1
  short_desc : String := ""
  long_desc : String := ""
  fdesc : Option String := none
  ldesc : Option String := none
deriving DecidableEq, Repr

def World : Type := Nat → GameObject

/-- First step of `GameObject.move_to` (base.py lines 102-105): remove the
object from its old location's contents. `List.erase` drops the first
occurrence and is a no-op when absent, exactly Python's guarded
`contents.remove(self)`. -/
def removeFromOld (w : World) (e : Nat) : World :=
  match (w e).location with
  | none => w
  | some old =>
      fun i => if i = old then { w i with contents := (w i).contents.erase e } else w i

/-- Second step of `GameObject.move_to` (base.py line 108): set the
object's location reference. -/
def setLocation (w : World) (e : Nat) (p : Option Nat) : World :=
  fun i => if i = e then { w i with location := p } else w i

/-- Third step of `GameObject.move_to` (base.py lines 109-111): append the
object to the new location's contents unless already present. -/
def addToNew (w : World) (e : Nat) : Option Nat → World
  | none => w
  | some np =>
      fun i =>
        if i = np then
          if e ∈ (w np).contents then w i
          else { w i with contents := (w i).contents ++ [e] }
        else w i

/-- `GameObject.move_to` (base.py lines 92-111): the three steps in the
order the Python method performs them. There is no cycle or self-move
check in the code. -/
def move_to (w : World) (e : Nat) (new_location : Option Nat) : World :=
  addToNew (setLocation (removeFromOld w e) e new_location) e new_location

/-- `GameObject.get_room` (base.py lines 183-199): walk the parent chain
until a Room-kind object is found. `fuel` bounds the walk; every theorem
below supplies fuel beyond the chain depth of the world at hand (on a
cyclic graph the Python loop would not terminate at all). -/
def get_room (w : World) : Nat → Nat → Option Nat
  | 0, _ => none
  | fuel + 1, i =>
      if (w i).kind = Kind.room then some i
      else
        match (w i).location with
        | none => none
        | some p => get_room w fuel p

/-- Loop of `GameObject._containers_accessible` (base.py lines 163-181):
from a starting location upward to the top of the chain, every object met
must carry OPENBIT or TRANSBIT (every `GameObject` has `flags`, so the
`hasattr` guard in the code is always true — the walk does not stop at
the actor or the room). -/
def containers_accessible_from (w : World) : Nat → Option Nat → Bool
  | _, none => true
  | 0, some _ => true
  | fuel + 1, some c =>
      if ¬ (hasFlagBits (w c).flags OPENBIT || hasFlagBits (w c).flags TRANSBIT) then false
      else containers_accessible_from w fuel (w c).location

/-- `GameObject._containers_accessible`: the walk starts at the object's
own location. -/
def containers_accessible (w : World) (fuel : Nat) (e : Nat) : Bool :=
  containers_accessible_from w fuel (w e).location

/-- Middle loop of `GameObject.is_accessible_to` (base.py lines 152-159):
walk the entity's parent chain; on reaching the actor or the actor's room,
answer with `containers_accessible`. -/
def accessible_chain (w : World) (fuel : Nat) (e actor : Nat) (actor_room : Option Nat) :
    Nat → Option Nat → Bool
  | _, none => false
  | 0, some _ => false
  | f + 1, some c =>
      if c = actor ∨ actor_room = some c then containers_accessible w fuel e
      else accessible_chain w fuel e actor actor_room f (w c).location

/-- `GameObject.is_accessible_to` (base.py lines 125-161). -/
def is_accessible_to (w : World) (fuel : Nat) (e actor : Nat) : Bool :=
  if (w e).location = some actor then true
  else
    match get_room w fuel actor with
    | some r =>
        if (w e).location = some r then true
        else accessible_chain w fuel e actor (some r) fuel ((w e).location)
    | none => accessible_chain w fuel e actor none fuel ((w e).location)

/-- `Room.is_lit` (room.py lines 105-130): natural light, else a light
source among the room's direct contents with LIGHTBIT and ONBIT both set.
The code scans only `self.contents` (its comment defers the inventory
check: "For now, just check the room contents"). -/
def is_lit (w : World) (r : Nat) : Bool :=
  if (w r).light_level > 0 then true
  else
    (w r).contents.any fun i =>
      hasFlagBits (w i).flags LIGHTBIT && hasFlagBits (w i).flags ONBIT

/-- Per-object step of `Room.describe`'s listing loop (room.py lines
163-170): the first-seen text if the object has an `fdesc` attribute and
is unseen (marking it seen), else `ldesc` if that attribute exists, else
the generic presence line. -/
def describe_obj (w : World) (i : Nat) : String × World :=
  if (w i).fdesc.isSome ∧ ¬ (w i).seen then
    ((w i).fdesc.getD "", fun j => if j = i then { w j with seen := true } else w j)
  else if (w i).ldesc.isSome then ((w i).ldesc.getD "", w)
  else ("There is " ++ (w i).short_desc ++ " here.", w)

/-- The listing loop over the visible objects, threading the seen
updates in order. -/
def describe_objs (w : World) : List Nat → List String × World
  | [] => ([], w)
  | i :: rest =>
      let sw := describe_obj w i
      let rest_sw := describe_objs sw.2 rest
      (sw.1 :: rest_sw.1, rest_sw.2)

/-- `Room.describe` (room.py lines 132-172), returning the list of emitted
parts (Python joins them with newlines) and the updated world. The
object filter mirrors the code exactly: it tests
`obj.has_flag(obj.flags & (1 << 0))`, i.e. excludes on bit 0 (INVISIBLE),
although the adjacent comment in the code says NDESCBIT (bit 1). -/
def describe (w : World) (r : Nat) (verbose : Bool) : List String × World :=
  let parts1 := [(w r).short_desc, ""]
  let parts2 := if verbose || !(w r).visited then parts1 ++ [(w r).long_desc] else parts1
  let visible := (w r).contents.filter fun i =>
    ! hasFlagBits (w i).flags ((w i).flags &&& (1 <<< 0))
  if visible.isEmpty then (parts2, w)
  else
    let sw := describe_objs w visible
    (parts2 ++ [""] ++ sw.1, sw.2)

/-- `Room.on_enter` (room.py lines 174-193) for a room without a
`room_action` handler: mark the room visited. (With a handler that
returns a truthy value the code returns before setting `visited`;
handlers are arbitrary callables outside this model.) -/
def on_enter (w : World) (r : Nat) : World :=
  fun i => if i = r then { w i with visited := true } else w i

/-! Concrete worlds used as inputs of the evaluation theorems. Every
unlisted id is a detached plain object. -/

/-- Two plain objects: 0 contains 1. Used to exercise a cycle-creating
move. -/
def cycleWorld : World := fun i =>
  if i = 0 then { contents := [1] }
  else if i = 1 then { location := some 0 }
  else {}

/-- The spec's end-to-end accessibility scenario: room 0 holds an open,
openable box 1 (with coin 2 inside) and actor 3. -/
def accessWorld : World := fun i =>
  if i = 0 then
    { kind := Kind.room, contents := [1, 3], short_desc := "West of House" }
  else if i = 1 then
    { kind := Kind.container, flags := CONTBIT + OPENBIT + OPENABLE,
      location := some 0, contents := [2], short_desc := "small mailbox" }
  else if i = 2 then
    { kind := Kind.item, location := some 1, short_desc := "coin" }
  else if i = 3 then
    { kind := Kind.actor, flags := ACTORBIT, location := some 0, short_desc := "adventurer" }
  else {}

/-- Same scenario with the box closed (OPENBIT clear). -/
def accessWorldClosed : World := fun i =>
  if i = 1 then
    { kind := Kind.container, flags := CONTBIT + OPENABLE,
      location := some 0, contents := [2], short_desc := "small mailbox" }
  else accessWorld i

/-- A dark room 0 whose only content is actor 1 carrying a switched-on
lamp 2. -/
def litWorld : World := fun i =>
  if i = 0 then
    { kind := Kind.room, contents := [1], light_level := 0, short_desc := "Cellar" }
  else if i = 1 then
    { kind := Kind.actor, flags := ACTORBIT, location := some 0, contents := [2],
      short_desc := "adventurer" }
  else if i = 2 then
    { kind := Kind.item, flags := LIGHTBIT + ONBIT, location := some 1,
      short_desc := "brass lantern" }
  else {}

/-- An unvisited room 0 containing object 1 flagged NDESCBIT (with a
first-seen text) and object 2 flagged INVISIBLE (with a later text). -/
def descWorld : World := fun i =>
  if i = 0 then
    { kind := Kind.room, contents := [1, 2], short_desc := "Kitchen",
      long_desc := "You are in the kitchen of the white house." }
  else if i = 1 then
    { kind := Kind.item, flags := NDESCBIT, location := some 0,
      short_desc := "brass lantern", fdesc := some "A brass lantern sits here." }
  else if i = 2 then
    { kind := Kind.item, flags := INVISIBLE, location := some 0,
      short_desc := "ghost", ldesc := some "An invisible thing is here." }
  else {}

/-! Theorems about the actor health state machine. -/

theorem take_damage_dead (s : Actor) (a : Int) (h : s.is_dead = true) :
    (take_damage s a).1 = s := by
  simp [take_damage, h]

theorem heal_dead (s : Actor) (a : Int) (h : s.is_dead = true) :
    (heal s a).1 = s := by
  simp [heal, h]

theorem take_damage_inv (s : Actor) (a : Int) (h : ActorInv s) (ha : 0 ≤ a) :
    ActorInv (take_damage s a).1 := by
  obtain ⟨h0, hm, hiff⟩ := h
  cases hsd : s.is_dead with
  | true =>
    rw [take_damage_dead s a hsd]
    exact ⟨h0, hm, hiff⟩
  | false =>
    by_cases hle : s.health - min a s.health ≤ 0 <;>
      simp [take_damage, hsd, hle, ActorInv] <;>
      simp [hsd] at hiff <;>
      omega

theorem heal_inv (s : Actor) (a : Int) (h : ActorInv s) (ha : 0 ≤ a) :
    ActorInv (heal s a).1 := by
  obtain ⟨h0, hm, hiff⟩ := h
  cases hsd : s.is_dead with
  | true =>
    rw [heal_dead s a hsd]
    exact ⟨h0, hm, hiff⟩
  | false =>
    simp [heal, hsd, ActorInv]
    simp [hsd] at hiff
    omega

/-- C4: `take_damage` clamps the applied damage to the current health (the
resulting health is never negative and drops by exactly the reported
amount), the dead flag afterwards holds exactly when health is zero, a call
on an already-dead actor changes nothing, applies zero damage and reports
death, and on a living actor the returned flag is true exactly when this
call drove health to zero. -/
theorem take_damage_spec (s : Actor) (a : Int)
    (hd : s.is_dead = true → s.health = 0) :
    0 ≤ (take_damage s a).1.health ∧
    (take_damage s a).2.1 ≤ s.health ∧
    (take_damage s a).1.health = s.health - (take_damage s a).2.1 ∧
    ((take_damage s a).1.is_dead = true ↔ (take_damage s a).1.health = 0) ∧
    (s.is_dead = true →
      (take_damage s a).1 = s ∧ (take_damage s a).2.1 = 0 ∧
      (take_damage s a).2.2 = true) ∧
    (s.is_dead = false →
      ((take_damage s a).2.2 = true ↔ (take_damage s a).1.health = 0)) := by
  cases hsd : s.is_dead with
  | true =>
    have h0 := hd hsd
    simp [take_damage, hsd, h0]
  | false =>
    by_cases hle : s.health - min a s.health ≤ 0 <;>
      simp [take_damage, hsd, hle] <;>
      omega

/-- Witness for C4 at the spec's example: health 10, damage 15. -/
theorem take_damage_spec_witness :
    ((Actor.mk 10 10 false).is_dead = true → (Actor.mk 10 10 false).health = 0) ∧
    (0 ≤ (take_damage ⟨10, 10, false⟩ 15).1.health ∧
    (take_damage ⟨10, 10, false⟩ 15).2.1 ≤ (Actor.mk 10 10 false).health ∧
    (take_damage ⟨10, 10, false⟩ 15).1.health =
      (Actor.mk 10 10 false).health - (take_damage ⟨10, 10, false⟩ 15).2.1 ∧
    ((take_damage ⟨10, 10, false⟩ 15).1.is_dead = true ↔
      (take_damage ⟨10, 10, false⟩ 15).1.health = 0) ∧
    ((Actor.mk 10 10 false).is_dead = true →
      (take_damage ⟨10, 10, false⟩ 15).1 = ⟨10, 10, false⟩ ∧
      (take_damage ⟨10, 10, false⟩ 15).2.1 = 0 ∧
      (take_damage ⟨10, 10, false⟩ 15).2.2 = true) ∧
    ((Actor.mk 10 10 false).is_dead = false →
      ((take_damage ⟨10, 10, false⟩ 15).2.2 = true ↔
        (take_damage ⟨10, 10, false⟩ 15).1.health = 0))) :=
  ⟨by decide, take_damage_spec ⟨10, 10, false⟩ 15 (by decide)⟩

/-- C5 counterexample: amounts in the code are Python ints, which may be
negative; `heal(-20)` on a live actor with health 10 and max_health 10
drives health to -10, below the claimed range `[0, max_health]`, with the
actor still not dead. -/
theorem actor_invariant_counterexample :
    (runOps ⟨10, 10, false⟩ [ActorOp.heal (-20)]).health = -10 ∧
    ¬ ActorInv (runOps ⟨10, 10, false⟩ [ActorOp.heal (-20)]) ∧
    (runOps ⟨10, 10, false⟩ [ActorOp.heal (-20)]).is_dead = false := by
  decide

/-- C5 (amended to non-negative amounts): every sequence of `take_damage`
and `heal` calls with non-negative amounts preserves health within
`[0, max_health]` together with "dead exactly when health is zero", and a
dead actor is never changed again (so death is permanent and heal restores
nothing to the dead). -/
theorem actor_invariant (s : Actor) (ops : List ActorOp)
    (hinv : ActorInv s) (hnn : ∀ op ∈ ops, 0 ≤ op.amount) :
    ActorInv (runOps s ops) ∧ (s.is_dead = true → runOps s ops = s) := by
  induction ops generalizing s with
  | nil => exact ⟨hinv, fun _ => rfl⟩
  | cons op rest ih =>
    have hop : 0 ≤ op.amount := hnn op (List.mem_cons_self op rest)
    have hrest : ∀ o ∈ rest, 0 ≤ o.amount :=
      fun o ho => hnn o (List.mem_cons_of_mem op ho)
    cases op with
    | damage a =>
      have hstep : ActorInv (take_damage s a).1 := take_damage_inv s a hinv hop
      refine ⟨(ih (take_damage s a).1 hstep hrest).1, fun hdead => ?_⟩
      have he : (take_damage s a).1 = s := take_damage_dead s a hdead
      simp only [runOps, he]
      exact (ih s hinv hrest).2 hdead
    | heal a =>
      have hstep : ActorInv (heal s a).1 := heal_inv s a hinv hop
      refine ⟨(ih (heal s a).1 hstep hrest).1, fun hdead => ?_⟩
      have he : (heal s a).1 = s := heal_dead s a hdead
      simp only [runOps, he]
      exact (ih s hinv hrest).2 hdead

/-- Witness for C5's amended theorem: health 10, damage 15 then heal 5. -/
theorem actor_invariant_witness :
    ActorInv ⟨10, 10, false⟩ ∧
    (∀ op ∈ [ActorOp.damage 15, ActorOp.heal 5], 0 ≤ op.amount) ∧
    (ActorInv (runOps ⟨10, 10, false⟩ [ActorOp.damage 15, ActorOp.heal 5]) ∧
      ((Actor.mk 10 10 false).is_dead = true →
        runOps ⟨10, 10, false⟩ [ActorOp.damage 15, ActorOp.heal 5] = ⟨10, 10, false⟩)) :=
  ⟨by decide, by decide,
    actor_invariant ⟨10, 10, false⟩ [ActorOp.damage 15, ActorOp.heal 5]
      (by decide) (by decide)⟩

/-! Bit-level helper lemmas: the flag constants are single bits `2 ^ k`,
and set/clear of one bit leaves every other bit alone. -/

theorem hasFlagBits_two_pow (x k : Nat) : hasFlagBits x (2 ^ k) = x.testBit k := by
  rw [hasFlagBits, Nat.and_two_pow]
  cases h : x.testBit k <;> simp

theorem hasFlagBits_setBits_self (x k : Nat) :
    hasFlagBits (setBits x (2 ^ k)) (2 ^ k) = true := by
  simp [setBits, hasFlagBits_two_pow, Nat.testBit_lor, Nat.testBit_two_pow_self]

theorem hasFlagBits_setBits_other (x j k : Nat) (h : j ≠ k) :
    hasFlagBits (setBits x (2 ^ j)) (2 ^ k) = hasFlagBits x (2 ^ k) := by
  simp [setBits, hasFlagBits_two_pow, Nat.testBit_lor, Nat.testBit_two_pow_of_ne h]

theorem hasFlagBits_clearBits_self (x k : Nat) :
    hasFlagBits (clearBits x (2 ^ k)) (2 ^ k) = false := by
  simp [clearBits, hasFlagBits_two_pow, Nat.testBit_xor, Nat.testBit_land,
    Nat.testBit_two_pow_self]

theorem hasFlagBits_clearBits_other (x j k : Nat) (h : j ≠ k) :
    hasFlagBits (clearBits x (2 ^ j)) (2 ^ k) = hasFlagBits x (2 ^ k) := by
  simp [clearBits, hasFlagBits_two_pow, Nat.testBit_xor, Nat.testBit_land,
    Nat.testBit_two_pow_of_ne h]

theorem hasFlag_clear_locked_open (x : Nat) :
    hasFlagBits (clearBits x LOCKEDBIT) OPENBIT = hasFlagBits x OPENBIT := by
  simpa [LOCKEDBIT, OPENBIT] using hasFlagBits_clearBits_other x 34 5 (by decide)

theorem hasFlag_clear_locked_locked (x : Nat) :
    hasFlagBits (clearBits x LOCKEDBIT) LOCKEDBIT = false := by
  simpa [LOCKEDBIT] using hasFlagBits_clearBits_self x 34

theorem hasFlag_clear_locked_openable (x : Nat) :
    hasFlagBits (clearBits x LOCKEDBIT) OPENABLE = hasFlagBits x OPENABLE := by
  simpa [LOCKEDBIT, OPENABLE] using hasFlagBits_clearBits_other x 34 35 (by decide)

theorem hasFlag_set_open_open (x : Nat) :
    hasFlagBits (setBits x OPENBIT) OPENBIT = true := by
  simpa [OPENBIT] using hasFlagBits_setBits_self x 5

theorem hasFlag_set_open_locked (x : Nat) :
    hasFlagBits (setBits x OPENBIT) LOCKEDBIT = hasFlagBits x LOCKEDBIT := by
  simpa [OPENBIT, LOCKEDBIT] using hasFlagBits_setBits_other x 5 34 (by decide)

/-! Theorems about the container state machine. -/

/-- C7 counterexample: a non-surface container that is Closed+Locked but
lacks the OPENABLE capability (flags CONTBIT+LOCKEDBIT). `open()` fails
with "You can't open that.", not the locked message, and after a
successful `unlock()` the `open()` call still fails — refuting both parts
of the claim for this container. -/
theorem container_locked_counterexample :
    (Container.mk (2 ^ 3 + 2 ^ 34) false "grate").is_surface = false ∧
    (Container.mk (2 ^ 3 + 2 ^ 34) false "grate").is_locked = true ∧
    (Container.mk (2 ^ 3 + 2 ^ 34) false "grate").is_open = false ∧
    ((Container.mk (2 ^ 3 + 2 ^ 34) false "grate").open_).2.2 ≠ "The grate is locked." ∧
    ((Container.mk (2 ^ 3 + 2 ^ 34) false "grate").open_).2.2 = "You can't open that." ∧
    (((Container.mk (2 ^ 3 + 2 ^ 34) false "grate").unlock).2.1 = true ∧
     ((((Container.mk (2 ^ 3 + 2 ^ 34) false "grate").unlock).1).open_).2.1 = false) := by
  decide

/-- C7 (amended to openable containers): a non-surface, openable container
in the Closed+Locked state refuses `open()` with the locked message and is
left unchanged; `unlock()` then `open()` both succeed and the container
ends Open+Unlocked. -/
theorem container_locked_spec (c : Container) (hs : c.is_surface = false)
    (ho : hasFlagBits c.flags OPENABLE = true)
    (hl : hasFlagBits c.flags LOCKEDBIT = true)
    (hop : hasFlagBits c.flags OPENBIT = false) :
    c.open_ = (c, false, "The " ++ c.short_desc ++ " is locked.") ∧
    (c.unlock).2.1 = true ∧
    ((c.unlock).1).is_open = false ∧
    ((c.unlock).1).is_locked = false ∧
    (((c.unlock).1).open_).2.1 = true ∧
    ((((c.unlock).1).open_).1).is_open = true ∧
    ((((c.unlock).1).open_).1).is_locked = false := by
  have h1 : c.open_ = (c, false, "The " ++ c.short_desc ++ " is locked.") := by
    simp [Container.open_, Container.is_openable, Container.is_locked, hs, ho, hl]
  have h2 : c.unlock = ({ c with flags := clearBits c.flags LOCKEDBIT }, true, "Unlocked.") := by
    simp [Container.unlock, Container.is_locked, hs, hl]
  refine ⟨h1, ?_, ?_, ?_, ?_, ?_, ?_⟩ <;>
    simp [h2, Container.open_, Container.is_open, Container.is_openable,
      Container.is_locked, hs, hasFlag_clear_locked_open, hasFlag_clear_locked_locked,
      hasFlag_clear_locked_openable, hasFlag_set_open_open, hasFlag_set_open_locked,
      ho, hop]

/-- Witness for C7's amended theorem: an openable locked box,
flags CONTBIT+LOCKEDBIT+OPENABLE. -/
theorem container_locked_spec_witness :
    ((Container.mk (2 ^ 3 + 2 ^ 34 + 2 ^ 35) false "box").is_surface = false ∧
     hasFlagBits (Container.mk (2 ^ 3 + 2 ^ 34 + 2 ^ 35) false "box").flags OPENABLE = true ∧
     hasFlagBits (Container.mk (2 ^ 3 + 2 ^ 34 + 2 ^ 35) false "box").flags LOCKEDBIT = true ∧
     hasFlagBits (Container.mk (2 ^ 3 + 2 ^ 34 + 2 ^ 35) false "box").flags OPENBIT = false) ∧
    ((Container.mk (2 ^ 3 + 2 ^ 34 + 2 ^ 35) false "box").open_ =
      (Container.mk (2 ^ 3 + 2 ^ 34 + 2 ^ 35) false "box", false,
        "The " ++ (Container.mk (2 ^ 3 + 2 ^ 34 + 2 ^ 35) false "box").short_desc ++
          " is locked.") ∧
     ((Container.mk (2 ^ 3 + 2 ^ 34 + 2 ^ 35) false "box").unlock).2.1 = true ∧
     (((Container.mk (2 ^ 3 + 2 ^ 34 + 2 ^ 35) false "box").unlock).1).is_open = false ∧
     (((Container.mk (2 ^ 3 + 2 ^ 34 + 2 ^ 35) false "box").unlock).1).is_locked = false ∧
     ((((Container.mk (2 ^ 3 + 2 ^ 34 + 2 ^ 35) false "box").unlock).1).open_).2.1 = true ∧
     (((((Container.mk (2 ^ 3 + 2 ^ 34 + 2 ^ 35) false "box").unlock).1).open_).1).is_open
        = true ∧
     (((((Container.mk (2 ^ 3 + 2 ^ 34 + 2 ^ 35) false "box").unlock).1).open_).1).is_locked
        = false) :=
  ⟨⟨by decide, by decide, by decide, by decide⟩,
    container_locked_spec (Container.mk (2 ^ 3 + 2 ^ 34 + 2 ^ 35) false "box")
      (by decide) (by decide) (by decide) (by decide)⟩

/-- C9: a non-surface container without the OPENABLE capability flag
refuses both `open()` ("You can't open that.") and `close()` ("You can't
close that.") and is left completely unchanged, whatever its open/locked
state. -/
theorem container_not_openable_spec (c : Container) (hs : c.is_surface = false)
    (ho : hasFlagBits c.flags OPENABLE = false) :
    c.open_ = (c, false, "You can't open that.") ∧
    c.close = (c, false, "You can't close that.") := by
  have hio : c.is_openable = false := by simp [Container.is_openable, hs, ho]
  constructor <;> simp [Container.open_, Container.close, hs, hio]

/-- Witness for C9: a plain locked crate, flags CONTBIT+LOCKEDBIT, no
OPENABLE. -/
theorem container_not_openable_spec_witness :
    ((Container.mk (2 ^ 3 + 2 ^ 34) false "crate").is_surface = false ∧
     hasFlagBits (Container.mk (2 ^ 3 + 2 ^ 34) false "crate").flags OPENABLE = false) ∧
    ((Container.mk (2 ^ 3 + 2 ^ 34) false "crate").open_ =
      (Container.mk (2 ^ 3 + 2 ^ 34) false "crate", false, "You can't open that.") ∧
     (Container.mk (2 ^ 3 + 2 ^ 34) false "crate").close =
      (Container.mk (2 ^ 3 + 2 ^ 34) false "crate", false, "You can't close that.")) :=
  ⟨⟨by decide, by decide⟩,
    container_not_openable_spec (Container.mk (2 ^ 3 + 2 ^ 34) false "crate")
      (by decide) (by decide)⟩

/-! Theorems about the containment graph and the traversals over it. -/

/-- C2: `move_to` has no cycle check — moving object 0 into its own child
1 "succeeds" and produces a containment cycle (each of the two objects is
the other's parent) instead of failing and leaving the graph unchanged as
the claim requires. -/
theorem move_to_cycle :
    (cycleWorld 1).location = some 0 ∧ 1 ∈ (cycleWorld 0).contents ∧
    ((move_to cycleWorld 0 (some 1)) 0).location = some 1 ∧
    ((move_to cycleWorld 0 (some 1)) 1).location = some 0 ∧
    0 ∈ ((move_to cycleWorld 0 (some 1)) 1).contents ∧
    1 ∈ ((move_to cycleWorld 0 (some 1)) 0).contents := by
  decide

/-- C1: in `accessWorld` the coin (2) sits directly inside the open box
(1), which sits directly in the actor's (3) room (0); the claim (and the
code's own docstring) says the coin is accessible, but
`_containers_accessible` walks past the box up to the room itself, whose
flag word has neither OPENBIT nor TRANSBIT, so `is_accessible_to` answers
false. With the box closed it also answers false, as the claim says. -/
theorem is_accessible_open_container :
    hasFlagBits (accessWorld 1).flags OPENBIT = true ∧
    (accessWorld 2).location = some 1 ∧
    (accessWorld 1).location = some 0 ∧
    (accessWorld 3).location = some 0 ∧
    get_room accessWorld 10 3 = some 0 ∧
    is_accessible_to accessWorld 10 2 3 = false ∧
    is_accessible_to accessWorldClosed 10 2 3 = false := by
  decide

/-- C3: room 0 of `litWorld` has base light level 0 and contains actor 1
carrying a lamp 2 with LIGHTBIT and ONBIT set; the claim says the room is
lit, but `is_lit` scans only the room's direct contents, so it answers
false. -/
theorem is_lit_carried_lamp :
    (litWorld 0).light_level = 0 ∧
    1 ∈ (litWorld 0).contents ∧
    (litWorld 2).location = some 1 ∧ 2 ∈ (litWorld 1).contents ∧
    hasFlagBits (litWorld 2).flags LIGHTBIT = true ∧
    hasFlagBits (litWorld 2).flags ONBIT = true ∧
    is_lit litWorld 0 = false := by
  decide

/-- C8: `Room.describe` filters its content listing on bit 0 (INVISIBLE)
instead of NDESCBIT: the NDESCBIT-flagged lantern (1) is listed although
the claim says no-description entities are omitted, and the
INVISIBLE-flagged object (2), which carries no NDESCBIT, is omitted
although the claim says it is described. -/
theorem describe_ndesc_filter :
    hasFlagBits (descWorld 1).flags NDESCBIT = true ∧
    hasFlagBits (descWorld 2).flags NDESCBIT = false ∧
    "A brass lantern sits here." ∈ (describe descWorld 0 false).1 ∧
    "An invisible thing is here." ∉ (describe descWorld 0 false).1 := by
  decide

theorem removeFromOld_location (w : World) (e i : Nat) :
    ((removeFromOld w e) i).location = (w i).location := by
  unfold removeFromOld
  cases h : (w e).location with
  | none => rfl
  | some old => by_cases hi : i = old <;> simp [hi]

theorem removeFromOld_contents (w : World) (e i : Nat) :
    ((removeFromOld w e) i).contents =
      if (w e).location = some i then (w i).contents.erase e else (w i).contents := by
  unfold removeFromOld
  cases h : (w e).location with
  | none => simp
  | some old =>
    by_cases hi : i = old
    · subst hi; simp
    · simp [hi, Ne.symm hi]

theorem setLocation_contents (w : World) (e : Nat) (p : Option Nat) (i : Nat) :
    ((setLocation w e p) i).contents = (w i).contents := by
  unfold setLocation
  by_cases hi : i = e <;> simp [hi]

theorem setLocation_self (w : World) (e : Nat) (p : Option Nat) :
    ((setLocation w e p) e).location = p := by
  simp [setLocation]

theorem addToNew_location (w : World) (e : Nat) (p : Option Nat) (i : Nat) :
    ((addToNew w e p) i).location = (w i).location := by
  unfold addToNew
  cases p with
  | none => rfl
  | some np =>
    by_cases hi : i = np
    · subst hi
      by_cases hm : e ∈ (w i).contents <;> simp [hm]
    · simp [hi]

theorem addToNew_other (w : World) (e : Nat) (p : Option Nat) (i : Nat)
    (h : p ≠ some i) : (addToNew w e p) i = w i := by
  unfold addToNew
  cases p with
  | none => rfl
  | some np =>
    have hi : i ≠ np := fun hh => h (by rw [hh])
    simp [hi]

theorem addToNew_contents_some (w : World) (e np : Nat) :
    ((addToNew w e (some np)) np).contents =
      if e ∈ (w np).contents then (w np).contents else (w np).contents ++ [e] := by
  unfold addToNew
  by_cases hm : e ∈ (w np).contents <;> simp [hm]

theorem move_to_location (w : World) (e : Nat) (p : Option Nat) :
    ((move_to w e p) e).location = p := by
  rw [move_to, addToNew_location, setLocation_self]

theorem count_after_add (l : List Nat) (e : Nat) (h : l.count e ≤ 1) :
    (if e ∈ l then l else l ++ [e]).count e = 1 := by
  by_cases hm : e ∈ l
  · have hpos : 0 < l.count e := List.count_pos_iff.mpr hm
    simp only [if_pos hm]
    omega
  · have h0 : l.count e = 0 := List.count_eq_zero.mpr hm
    simp [hm, List.count_append, h0]

theorem move_to_count (w : World) (e np : Nat) (h : (w np).contents.count e ≤ 1) :
    ((move_to w e (some np)) np).contents.count e = 1 := by
  have hc2 : ((setLocation (removeFromOld w e) e (some np)) np).contents.count e ≤ 1 := by
    rw [setLocation_contents, removeFromOld_contents]
    split
    · rw [List.count_erase_self]; omega
    · exact h
  rw [move_to, addToNew_contents_some]
  exact count_after_add _ e hc2

theorem move_to_absent (w : World) (e : Nat) (p : Option Nat) (old : Nat)
    (h : (w e).location = some old) (hne : p ≠ some old)
    (hc : (w old).contents.count e ≤ 1) :
    e ∉ ((move_to w e p) old).contents := by
  rw [move_to, addToNew_other _ _ _ _ hne, setLocation_contents,
    removeFromOld_contents, if_pos h]
  have h0 : ((w old).contents.erase e).count e = 0 := by
    rw [List.count_erase_self]; omega
  exact List.count_eq_zero.mp h0

/-- C6: after `move_to(e, P)` the object's location is exactly P; when P
is an object whose contents held e at most once (the containment
invariant), e occurs in P's contents exactly once afterwards, repeating
the same move keeps that count at one (no duplicate membership), and e is
gone from the contents of any prior parent other than P itself. -/
theorem move_to_spec (w : World) (e : Nat) (p : Option Nat) :
    ((move_to w e p) e).location = p ∧
    (∀ np, p = some np → (w np).contents.count e ≤ 1 →
      ((move_to w e p) np).contents.count e = 1 ∧
      ((move_to (move_to w e p) e p) np).contents.count e = 1) ∧
    (∀ old, (w e).location = some old → p ≠ some old →
      (w old).contents.count e ≤ 1 → e ∉ ((move_to w e p) old).contents) := by
  refine ⟨move_to_location w e p, ?_, ?_⟩
  · rintro np rfl hc
    exact ⟨move_to_count w e np hc,
      move_to_count (move_to w e (some np)) e np (le_of_eq (move_to_count w e np hc))⟩
  · exact fun old h hne hc => move_to_absent w e p old h hne hc

/-! Theorems about the description generator. -/

theorem describe_obj_frame (w : World) (i j : Nat) :
    (describe_obj w i).2 j = { w j with seen := ((describe_obj w i).2 j).seen } := by
  unfold describe_obj
  split
  · by_cases hj : j = i <;> simp [hj]
  · split <;> rfl

theorem describe_objs_frame (l : List Nat) (w : World) (j : Nat) :
    (describe_objs w l).2 j = { w j with seen := ((describe_objs w l).2 j).seen } := by
  induction l generalizing w with
  | nil => rfl
  | cons i rest ih =>
    have h2 := ih (describe_obj w i).2
    have h1 := describe_obj_frame w i j
    show (describe_objs (describe_obj w i).2 rest).2 j = _
    rw [h2, h1]
    rfl

theorem describe_frame_world (w : World) (r : Nat) (v : Bool) (j : Nat) :
    (describe w r v).2 j = { w j with seen := ((describe w r v).2 j).seen } := by
  dsimp only [describe]
  split
  · rfl
  · exact describe_objs_frame _ w j

theorem describe_visited (w : World) (r : Nat) (v : Bool) (j : Nat) :
    ((describe w r v).2 j).visited = (w j).visited := by
  conv_lhs => rw [describe_frame_world w r v j]

theorem describe_long_desc (w : World) (r : Nat) (v : Bool) (j : Nat) :
    ((describe w r v).2 j).long_desc = (w j).long_desc := by
  conv_lhs => rw [describe_frame_world w r v j]

theorem long_desc_mem (w : World) (r : Nat) (hv : (w r).visited = false) :
    (w r).long_desc ∈ (describe w r false).1 := by
  dsimp only [describe]
  rw [hv]
  split <;> simp

/-- C10: `describe` only ever rewrites `seen` flags — every object of the
resulting world differs from its old value at most in `seen`, so the
room's `visited` flag survives (only `on_enter` sets it), and two
consecutive non-verbose `describe` calls on a never-entered room both
include the long description. -/
theorem describe_no_visited_change (w : World) (r : Nat)
    (hv : (w r).visited = false) :
    (∀ j, (describe w r false).2 j = { w j with seen := ((describe w r false).2 j).seen }) ∧
    ((on_enter w r) r).visited = true ∧
    (w r).long_desc ∈ (describe w r false).1 ∧
    (w r).long_desc ∈ (describe (describe w r false).2 r false).1 := by
  refine ⟨fun j => describe_frame_world w r false j, by simp [on_enter],
    long_desc_mem w r hv, ?_⟩
  have hv2 : ((describe w r false).2 r).visited = false := by
    rw [describe_visited]; exact hv
  have hl : ((describe w r false).2 r).long_desc = (w r).long_desc :=
    describe_long_desc w r false r
  rw [← hl]
  exact long_desc_mem _ r hv2

/-- Witness for C10 at `descWorld`, whose room 0 is unvisited. -/
theorem describe_no_visited_change_witness :
    (descWorld 0).visited = false ∧
    ((∀ j, (describe descWorld 0 false).2 j =
        { descWorld j with seen := ((describe descWorld 0 false).2 j).seen }) ∧
     ((on_enter descWorld 0) 0).visited = true ∧
     (descWorld 0).long_desc ∈ (describe descWorld 0 false).1 ∧
     (descWorld 0).long_desc ∈ (describe (describe descWorld 0 false).2 0 false).1) :=
  ⟨by decide, describe_no_visited_change descWorld 0 (by decide)⟩

end Zork
